import Mathlib

/-
Verification development for the file-management API in src/app-js.js.
The handlers are shallowly embedded as pure Lean functions over an explicit
filesystem state; Node path.posix joining/normalization and the error-message
conventions of the Node fs layer are modelled over lists of characters so that
every definition evaluates by kernel reduction.
-/

namespace AppJs

/-! ## Path model (Node path.posix semantics) -/

/-- Split a character list on the slash character, keeping empty groups. -/
def splitSlash : List Char → List (List Char)
  | [] => [[]]
  | c :: rest =>
    match splitSlash rest with
    | [] => [[]]
    | g :: gs => if c = '/' then [] :: g :: gs else (c :: g) :: gs

/-- Normalization stack for path segments: empty and dot segments are dropped,
a dot-dot segment pops the last retained segment (clamped at the root, as Node
does for absolute paths), and any other segment is pushed. -/
def normStack : List String → List String → List String
  | acc, [] => acc
  | acc, seg :: rest =>
    if seg == "" || seg == "." then normStack acc rest
    else if seg == ".." then normStack acc.dropLast rest
    else normStack (acc ++ [seg]) rest

/-- Normalized segment list of a path string. -/
def pathSegs (p : String) : List String :=
  normStack [] ((splitSlash p.data).map (fun cs => String.mk cs))

/-- Join segments with slashes. -/
def joinSegs : List String → String
  | [] => ""
  | [s] => s
  | s :: rest => s ++ "/" ++ joinSegs rest

/-- Render a normalized segment list as an absolute path. -/
def renderAbs (segs : List String) : String :=
  "/" ++ joinSegs segs

/-- Node path.posix.join of an absolute base with a client-supplied part:
concatenate with a slash, then normalize dot, dot-dot and empty segments.
Trailing-slash preservation is dropped, which is irrelevant for the
properties considered here. -/
def joinPath (base p : String) : String :=
  let joined := if p == "" then base else base ++ "/" ++ p
  renderAbs (pathSegs joined)

/-- Node path.posix.dirname of a normalized absolute path. -/
def dirname (p : String) : String :=
  renderAbs (pathSegs p).dropLast

/-- Relative segment walk used by Node path.posix.relative. -/
def relSegs : List String → List String → List String
  | [], t => t
  | _ :: as, [] => List.replicate (as.length + 1) ".."
  | a :: as, b :: bs =>
    if a == b then relSegs as bs
    else List.replicate (as.length + 1) ".." ++ (b :: bs)

/-- Node path.posix.relative for absolute paths. -/
def pathRelative (f t : String) : String :=
  joinSegs (relSegs (pathSegs f) (pathSegs t))

/-- JS String.prototype.startsWith, the containment check used by the code. -/
def jsStartsWith (s pre : String) : Bool :=
  pre.data.isPrefixOf s.data

/-- JS truthiness of an optional string: undefined and the empty string are
falsy. -/
def jsTruthy : Option String → Bool
  | some s => s != ""
  | none => false

/-- JS expression content-or-empty: an absent or falsy content field becomes
the empty string. -/
def jsOrEmpty (o : Option String) : String := o.getD ""

/-- True when the string has an embedded null character. -/
def hasNull (s : String) : Bool :=
  s.data.any (fun c => c == Char.ofNat 0)

/-! ## Filesystem model -/

/-- A filesystem node: a regular file with string content, or a directory. -/
inductive FsNode where
  | file (content : String)
  | dir
deriving DecidableEq, Repr

/-- Filesystem state: an association list from normalized absolute path to
node; the first binding for a key wins. -/
abbrev FsState := List (String × FsNode)

def lookupFs (fs : FsState) (p : String) : Option FsNode :=
  match fs.find? (fun e => e.fst == p) with
  | some e => some e.snd
  | none => none

/-- Insert or replace the binding at a key. -/
def setFs (fs : FsState) (p : String) (n : FsNode) : FsState :=
  (p, n) :: fs.filter (fun e => e.fst != p)

/-- Error message of the Node fs layer when a path argument has an embedded
null byte (modelled from Node fs argument validation). -/
def nullByteMsg : String :=
  "The argument \x27path\x27 must be a string, Uint8Array, or URL without null bytes"

/-- ENOENT message format of the Node fs layer: it embeds the absolute path. -/
def enoent (op p : String) : String :=
  "ENOENT: no such file or directory, " ++ op ++ " \x27" ++ p ++ "\x27"

/-- ENOTDIR message format of the Node fs layer. -/
def enotdir (op p : String) : String :=
  "ENOTDIR: not a directory, " ++ op ++ " \x27" ++ p ++ "\x27"

/-- EISDIR message format of the Node fs layer. -/
def eisdir (op p : String) : String :=
  "EISDIR: illegal operation on a directory, " ++ op ++ " \x27" ++ p ++ "\x27"

/-- fs.stat model: rejects null-byte paths inside the fs call, otherwise
fails with ENOENT when the path is absent. -/
def fsStat (fs : FsState) (p : String) : Except String FsNode :=
  if hasNull p then .error nullByteMsg
  else
    match lookupFs fs p with
    | some n => .ok n
    | none => .error (enoent "stat" p)

/-- Immediate children names of a directory key in the state. -/
def childNames (fs : FsState) (p : String) : List String :=
  fs.filterMap (fun e =>
    let ks := pathSegs e.fst
    if (pathSegs p).isPrefixOf ks && ks.length == (pathSegs p).length + 1 then
      ks.getLast?
    else none)

/-- fs.readdir model. -/
def fsReaddir (fs : FsState) (p : String) : Except String (List String) :=
  if hasNull p then .error nullByteMsg
  else
    match lookupFs fs p with
    | some .dir => .ok (childNames fs p)
    | some (.file _) => .error (enotdir "scandir" p)
    | none => .error (enoent "scandir" p)

/-- fs.readFile model. -/
def fsReadFile (fs : FsState) (p : String) : Except String String :=
  if hasNull p then .error nullByteMsg
  else
    match lookupFs fs p with
    | some (.file c) => .ok c
    | some .dir => .error (eisdir "read" p)
    | none => .error (enoent "open" p)

/-- fs.writeFile model: fails on a directory target or a missing or non-dir
parent, otherwise replaces the content in place. -/
def fsWriteFile (fs : FsState) (p c : String) : Except String FsState :=
  if hasNull p then .error nullByteMsg
  else
    match lookupFs fs p with
    | some .dir => .error (eisdir "open" p)
    | _ =>
      match lookupFs fs (dirname p) with
      | some .dir => .ok (setFs fs p (.file c))
      | some (.file _) => .error (enotdir "open" p)
      | none => .error (enoent "open" p)

/-- The key together with all its ancestors, shortest first. -/
def ancestorPaths (p : String) : List String :=
  (List.range (pathSegs p).length).map
    (fun i => renderAbs ((pathSegs p).take (i + 1)))

/-- fs-extra ensureDir model: creates every missing ancestor directory,
failing when a regular file is in the way. -/
def fsEnsureDir (fs : FsState) (p : String) : Except String FsState :=
  if hasNull p then .error nullByteMsg
  else
    (ancestorPaths p).foldl
      (fun acc q =>
        match acc with
        | .error e => .error e
        | .ok s =>
          match lookupFs s q with
          | some .dir => .ok s
          | some (.file _) => .error (enotdir "mkdir" q)
          | none => .ok (setFs s q .dir))
      (.ok fs)

/-- fs-extra remove model: deletes the key and everything below it; a missing
path silently succeeds (documented rm -rf like idempotence of fs-extra). -/
def fsRemove (fs : FsState) (p : String) : Except String FsState :=
  if hasNull p then .error nullByteMsg
  else
    .ok (fs.filter (fun e =>
      !(e.fst == p || (pathSegs p).isPrefixOf (pathSegs e.fst) &&
        decide ((pathSegs p).length < (pathSegs e.fst).length))))

/-- fs-extra move model with overwrite: the source subtree is rekeyed onto the
destination, whose previous subtree is dropped; fails when the source is
absent. -/
def fsMove (fs : FsState) (src dst : String) : Except String FsState :=
  if hasNull src || hasNull dst then .error nullByteMsg
  else
    match lookupFs fs src with
    | none => .error (enoent "rename" src)
    | some n =>
      .ok ((dst, n) :: fs.filterMap (fun e =>
        if e.fst == src || e.fst == dst then none
        else some e))

/-! ## HTTP layer model -/

/-- One listing record, as produced by the GET /api/files handler. The
last-modified timestamp is wall-clock data outside the embedding and the size
of a directory is filesystem specific; size is modelled as content length for
files and zero for directories. -/
structure FileEntry where
  name : String
  path : String
  isDirectory : Bool
  size : Nat
deriving DecidableEq, Repr

/-- JSON response bodies produced by the handlers. The errorObj constructor
models a body that is exactly one field named error holding a string. -/
inductive Body where
  | errorObj (msg : String)
  | listing (entries : List FileEntry)
  | contentObj (content : String)
  | successPath (path : String)
  | successOnly
deriving DecidableEq, Repr

structure Response where
  status : Nat
  body : Body
deriving DecidableEq, Repr

/-- Primitive filesystem calls a handler can issue, in order. The lock
constructors are the vocabulary of the coordinator described by the
specification; the handlers in src/app-js.js never emit them. -/
inductive FsAction where
  | stat (p : String)
  | readdir (p : String)
  | readFile (p : String)
  | writeFile (p : String) (content : String)
  | ensureDir (p : String)
  | remove (p : String)
  | move (src dst : String)
  | lockAcquire (p : String)
  | lockRelease (p : String)
deriving DecidableEq, Repr

def isDirNode : FsNode → Bool
  | .dir => true
  | .file _ => false

def nodeSize : FsNode → Nat
  | .dir => 0
  | .file c => c.length

/-- Default root directory of the service (FILES_DIR fallback). -/
def filesDirDefault : String := "/var/www/html"

/-- GET /api/files handler (src/app-js.js lines 24-52): optional query path is
joined onto the root, the raw startsWith containment check runs, then the
directory is listed and each child is stat-ed into a FileEntry. -/
def getFiles (filesDir : String) (fs : FsState) (queryPath : Option String) :
    Response × List FsAction :=
  let dirPath :=
    if jsTruthy queryPath then joinPath filesDir (queryPath.getD "") else filesDir
  if !jsStartsWith dirPath filesDir then
    (⟨403, .errorObj "Access denied"⟩, [])
  else
    match fsReaddir fs dirPath with
    | .error e => (⟨500, .errorObj e⟩, [.readdir dirPath])
    | .ok names =>
      let entriesE : Except String (List FileEntry) :=
        names.foldr
          (fun nm acc =>
            match acc with
            | .error e => .error e
            | .ok es =>
              match fsStat fs (joinPath dirPath nm) with
              | .error e => .error e
              | .ok n =>
                .ok (⟨nm, pathRelative filesDir (joinPath dirPath nm),
                      isDirNode n, nodeSize n⟩ :: es))
          (.ok [])
      let tr := FsAction.readdir dirPath ::
        names.map (fun nm => FsAction.stat (joinPath dirPath nm))
      match entriesE with
      | .error e => (⟨500, .errorObj e⟩, tr)
      | .ok es => (⟨200, .listing es⟩, tr)

/-- GET /api/files/content handler (src/app-js.js lines 55-78): requires a
truthy query path, runs the raw startsWith check, stats the target, rejects
directories with 400, otherwise reads the file. -/
def getContent (filesDir : String) (fs : FsState) (queryPath : Option String) :
    Response × List FsAction :=
  if !jsTruthy queryPath then
    (⟨400, .errorObj "File path is required"⟩, [])
  else
    let filePath := joinPath filesDir (queryPath.getD "")
    if !jsStartsWith filePath filesDir then
      (⟨403, .errorObj "Access denied"⟩, [])
    else
      match fsStat fs filePath with
      | .error e => (⟨500, .errorObj e⟩, [.stat filePath])
      | .ok .dir =>
        (⟨400, .errorObj "Path points to a directory, not a file"⟩,
         [.stat filePath])
      | .ok (.file _) =>
        match fsReadFile fs filePath with
        | .error e => (⟨500, .errorObj e⟩, [.stat filePath, .readFile filePath])
        | .ok c => (⟨200, .contentObj c⟩, [.stat filePath, .readFile filePath])

/-- Request body of POST /api/files. -/
structure PostBody where
  filePath : Option String
  content : Option String

/-- POST /api/files handler (src/app-js.js lines 81-106): requires a truthy
filePath, runs the raw startsWith check, ensures the parent directory, then
writes content-or-empty directly to the target path. -/
def postFiles (filesDir : String) (fs : FsState) (b : PostBody) :
    Response × FsState × List FsAction :=
  if !jsTruthy b.filePath then
    (⟨400, .errorObj "File path is required"⟩, fs, [])
  else
    let fullPath := joinPath filesDir (b.filePath.getD "")
    if !jsStartsWith fullPath filesDir then
      (⟨403, .errorObj "Access denied"⟩, fs, [])
    else
      match fsEnsureDir fs (dirname fullPath) with
      | .error e => (⟨500, .errorObj e⟩, fs, [.ensureDir (dirname fullPath)])
      | .ok fs1 =>
        match fsWriteFile fs1 fullPath (jsOrEmpty b.content) with
        | .error e =>
          (⟨500, .errorObj e⟩, fs1,
           [.ensureDir (dirname fullPath),
            .writeFile fullPath (jsOrEmpty b.content)])
        | .ok fs2 =>
          (⟨200, .successPath (b.filePath.getD "")⟩, fs2,
           [.ensureDir (dirname fullPath),
            .writeFile fullPath (jsOrEmpty b.content)])

/-- DELETE /api/files handler (src/app-js.js lines 109-130): requires a truthy
query path, runs the raw startsWith check, then calls fs.remove. -/
def deleteFiles (filesDir : String) (fs : FsState) (queryPath : Option String) :
    Response × FsState × List FsAction :=
  if !jsTruthy queryPath then
    (⟨400, .errorObj "File path is required"⟩, fs, [])
  else
    let fullPath := joinPath filesDir (queryPath.getD "")
    if !jsStartsWith fullPath filesDir then
      (⟨403, .errorObj "Access denied"⟩, fs, [])
    else
      match fsRemove fs fullPath with
      | .error e => (⟨500, .errorObj e⟩, fs, [.remove fullPath])
      | .ok fs1 => (⟨200, .successOnly⟩, fs1, [.remove fullPath])

/-- Multer-provided upload request: original file name with its temporary
upload path, plus the optional destination directory field. -/
structure UploadReq where
  file : Option (String × String)
  path : Option String

/-- POST /api/upload handler (src/app-js.js lines 133-160): requires an
uploaded file, joins root, directory field and original name, runs the raw
startsWith check, ensures the parent directory, then moves the temp file. -/
def postUpload (filesDir : String) (fs : FsState) (req : UploadReq) :
    Response × FsState × List FsAction :=
  match req.file with
  | none => (⟨400, .errorObj "No file uploaded"⟩, fs, [])
  | some (orig, tmp) =>
    let targetPath := joinPath (joinPath filesDir (jsOrEmpty req.path)) orig
    if !jsStartsWith targetPath filesDir then
      (⟨403, .errorObj "Access denied"⟩, fs, [])
    else
      match fsEnsureDir fs (dirname targetPath) with
      | .error e => (⟨500, .errorObj e⟩, fs, [.ensureDir (dirname targetPath)])
      | .ok fs1 =>
        match fsMove fs1 tmp targetPath with
        | .error e =>
          (⟨500, .errorObj e⟩, fs1,
           [.ensureDir (dirname targetPath), .move tmp targetPath])
        | .ok fs2 =>
          (⟨200, .successPath (pathRelative filesDir targetPath)⟩, fs2,
           [.ensureDir (dirname targetPath), .move tmp targetPath])

/-! ## Claim-formalization helpers and sample states -/

/-- Sample state: the root directory and its ancestors exist and are empty. -/
def demoDirs : FsState :=
  [("/var", .dir), ("/var/www", .dir), ("/var/www/html", .dir)]

/-- Sample state with a sibling directory whose name extends the root as a raw
string, holding a file outside the root. -/
def secretFs : FsState :=
  demoDirs ++
  [("/var/www/html-secret", .dir),
   ("/var/www/html-secret/secret.txt", .file "s3cr3t")]

/-- Sample state with a subdirectory inside the root. -/
def demoWithSub : FsState := ("/var/www/html/sub", FsNode.dir) :: demoDirs

/-- The atomic-write pattern the specification demands: some action of the
trace renames a distinct temporary onto the target. -/
def atomicWriteTrace (tr : List FsAction) (target : String) : Bool :=
  tr.any (fun a =>
    match a with
    | .move src dst => dst == target && src != target
    | _ => false)

/-- True when the action mutates the filesystem. -/
def isMutating : FsAction → Bool
  | .writeFile _ _ => true
  | .ensureDir _ => true
  | .remove _ => true
  | .move _ _ => true
  | _ => false

def isLockAcquire : FsAction → Bool
  | .lockAcquire _ => true
  | _ => false

/-- True when the trace holds no lock acquisition or release at all. -/
def noLockActions (tr : List FsAction) : Bool :=
  tr.all (fun a =>
    match a with
    | .lockAcquire _ => false
    | .lockRelease _ => false
    | _ => true)

/-- Error-shape invariant of a response: any response with an error status
carries a body that is exactly one error field holding a string message. -/
def errorShaped (r : Response) : Prop :=
  400 ≤ r.status → ∃ m, r.body = Body.errorObj m

/-- Substring test: the needle occurs contiguously inside the haystack. -/
def hasSubList (needle : List Char) : List Char → Bool
  | [] => needle.isEmpty
  | c :: rest => needle.isPrefixOf (c :: rest) || hasSubList needle rest

/-- String containment: the needle occurs inside the haystack. -/
def strContains (hay needle : String) : Bool :=
  hasSubList needle.data hay.data

/-! ## Helper lemmas -/

theorem lookupFs_setFs_same (fs : FsState) (p : String) (n : FsNode) :
    lookupFs (setFs fs p n) p = some n := by
  simp [lookupFs, setFs, List.find?]

theorem exists_append_of_isPrefixOf (l₁ l₂ : List Char)
    (h : l₁.isPrefixOf l₂ = true) : ∃ t, l₂ = l₁ ++ t := by
  have h2 : l₁ <+: l₂ := by simpa using h
  obtain ⟨t, ht⟩ := h2
  exact ⟨t, ht.symm⟩

theorem isPrefixOf_append_self (l r : List Char) :
    l.isPrefixOf (l ++ r) = true := by
  simp

theorem hasSubList_of_isPrefixOf (needle hay : List Char)
    (h : needle.isPrefixOf hay = true) : hasSubList needle hay = true := by
  cases hay with
  | nil =>
    cases needle with
    | nil => rfl
    | cons c cs => simp [List.isPrefixOf] at h
  | cons c rest => simp [hasSubList, h]

theorem hasSubList_append_left (needle pre hay : List Char)
    (h : hasSubList needle hay = true) :
    hasSubList needle (pre ++ hay) = true := by
  induction pre with
  | nil => simpa using h
  | cons c cs ih => simp [hasSubList, ih]

/-! ## Claim theorems -/

/-- C1: the containment check of the handlers is a raw string-prefix test, not
a whole-segment comparison, and it fails to reject a path that escapes the
root: with Root /var/www/html, the request path dot-dot slash html-secret
joins and normalizes to the sibling directory /var/www/html-secret, the
startsWith check accepts it, and the listing handler serves the outside
directory with status 200 instead of the claimed AccessDenied 403. -/
theorem c1_containment_bypass :
    joinPath filesDirDefault "../html-secret" = "/var/www/html-secret" ∧
    jsStartsWith "/var/www/html-secret" filesDirDefault = true ∧
    (getFiles filesDirDefault secretFs (some "../html-secret")).1 =
      ⟨200, Body.listing [⟨"secret.txt", "../html-secret/secret.txt", false, 6⟩]⟩ ∧
    (getFiles filesDirDefault secretFs (some "../html-secret")).1.status ≠ 403 := by
  refine ⟨by decide, by decide, by decide, by decide⟩

/-- C2 counterexample: a successful POST /api/files write issues a single
direct writeFile on the final target path; its action trace holds no rename
of a temporary sibling onto the target, so the claimed
write-temp-then-rename pattern is absent. -/
theorem c2_counterexample :
    (postFiles filesDirDefault demoDirs ⟨some "a.txt", some "hi"⟩).2.2 =
      [FsAction.ensureDir "/var/www/html",
       FsAction.writeFile "/var/www/html/a.txt" "hi"] ∧
    atomicWriteTrace
      (postFiles filesDirDefault demoDirs ⟨some "a.txt", some "hi"⟩).2.2
      "/var/www/html/a.txt" = false := by
  refine ⟨by decide, by decide⟩

/-- C3 counterexample: a filesystem-mutating operation (the direct write of
POST /api/files) runs with no lock acquisition anywhere in its action trace,
so no per-path exclusive lock guards mutating operations. -/
theorem c3_counterexample :
    ((postFiles filesDirDefault demoDirs ⟨some "b.txt", some "yo"⟩).2.2).any
      isMutating = true ∧
    ((postFiles filesDirDefault demoDirs ⟨some "b.txt", some "yo"⟩).2.2).any
      isLockAcquire = false := by
  refine ⟨by decide, by decide⟩

/-- C4 counterexample: a read request whose path embeds a null character is
not rejected up front with an InvalidPath error; it passes the containment
check, the handler calls fs.stat on it (a filesystem access), and the failure
surfaces as a 500 with the raw fs message, not as a 400. -/
theorem c4_counterexample :
    (getContent filesDirDefault demoDirs (some "a\x00b")).1.status = 500 ∧
    (getContent filesDirDefault demoDirs (some "a\x00b")).1.status ≠ 400 ∧
    (getContent filesDirDefault demoDirs (some "a\x00b")).2 =
      [FsAction.stat "/var/www/html/a\x00b"] := by
  refine ⟨by decide, by decide, by decide⟩

/-- C5 counterexample: deleting a path that does not exist returns 200 with a
success body, not a NotFound error: fs.remove is idempotent and the handler
surfaces no error for a missing target. -/
theorem c5_counterexample :
    lookupFs demoDirs "/var/www/html/nope.txt" = none ∧
    deleteFiles filesDirDefault demoDirs (some "nope.txt") =
      (⟨200, Body.successOnly⟩, demoDirs,
       [FsAction.remove "/var/www/html/nope.txt"]) ∧
    (deleteFiles filesDirDefault demoDirs (some "nope.txt")).1.status ≠ 404 := by
  refine ⟨by decide, by decide, by decide⟩

/-- C6 counterexample: reading a missing file produces a 500 whose error
message is the raw fs ENOENT message, which embeds the canonicalized absolute
server path; the Root prefix /var/www/html occurs verbatim in the
client-visible error body. -/
theorem c6_counterexample :
    (getContent filesDirDefault demoDirs (some "nope.txt")).1 =
      ⟨500, Body.errorObj (enoent "stat" "/var/www/html/nope.txt")⟩ ∧
    strContains (enoent "stat" "/var/www/html/nope.txt") filesDirDefault
      = true := by
  refine ⟨by decide, by decide⟩

/-- C4 amended: a path input with an embedded null character is not rejected
by any validation of the handler; whenever it is truthy and passes the raw
containment check, the handler issues the fs.stat call, which itself fails,
and the handler answers 500 with the raw fs message rather than a 400
InvalidPath rejection. -/
theorem c4_null_reaches_fs (fd : String) (fs : FsState) (p : String)
    (h1 : jsTruthy (some p) = true)
    (h2 : jsStartsWith (joinPath fd p) fd = true)
    (h3 : hasNull (joinPath fd p) = true) :
    getContent fd fs (some p) =
      (⟨500, Body.errorObj nullByteMsg⟩, [FsAction.stat (joinPath fd p)]) := by
  simp [getContent, fsStat, h1, h2, h3]

theorem c4_null_reaches_fs_witness :
    getContent filesDirDefault demoDirs (some "c\x00d") =
      (⟨500, Body.errorObj nullByteMsg⟩,
       [FsAction.stat (joinPath filesDirDefault "c\x00d")]) :=
  c4_null_reaches_fs filesDirDefault demoDirs "c\x00d"
    (by decide) (by decide) (by decide)

/-- C5 amended: a truthy delete path that passes the containment check and has
no null byte always yields 200 with a success body, whether or not the target
exists: deletion is silently idempotent, and NotFound is never surfaced. -/
theorem c5_idempotent_delete (fd : String) (fs : FsState) (p : String)
    (h1 : jsTruthy (some p) = true)
    (h2 : jsStartsWith (joinPath fd p) fd = true)
    (h3 : hasNull (joinPath fd p) = false) :
    (deleteFiles fd fs (some p)).1 = ⟨200, Body.successOnly⟩ := by
  simp [deleteFiles, fsRemove, h1, h2, h3]

theorem c5_idempotent_delete_witness :
    (deleteFiles filesDirDefault demoDirs (some "gone.txt")).1 =
      ⟨200, Body.successOnly⟩ :=
  c5_idempotent_delete filesDirDefault demoDirs "gone.txt"
    (by decide) (by decide) (by decide)

/-- C7: write-then-read round trip at the filesystem layer used by the
handlers: writing content to a resolved path and reading the same path back
returns exactly the written content. -/
theorem c7_write_read_roundtrip (fs : FsState) (p c : String)
    (h1 : hasNull p = false)
    (h2 : lookupFs fs p ≠ some FsNode.dir)
    (h3 : lookupFs fs (dirname p) = some FsNode.dir) :
    fsWriteFile fs p c = .ok (setFs fs p (.file c)) ∧
    fsReadFile (setFs fs p (.file c)) p = .ok c := by
  constructor
  · cases hl : lookupFs fs p with
    | none => simp [fsWriteFile, h1, hl, h3]
    | some n =>
      cases n with
      | dir => exact absurd hl h2
      | file c0 => simp [fsWriteFile, h1, hl, h3]
  · simp [fsReadFile, h1, lookupFs_setFs_same]

theorem c7_write_read_roundtrip_witness :
    fsWriteFile demoDirs "/var/www/html/w.txt" "hello" =
      .ok (setFs demoDirs "/var/www/html/w.txt" (.file "hello")) ∧
    fsReadFile (setFs demoDirs "/var/www/html/w.txt" (.file "hello"))
      "/var/www/html/w.txt" = .ok "hello" :=
  c7_write_read_roundtrip demoDirs "/var/www/html/w.txt" "hello"
    (by decide) (by decide) (by decide)

/-- C8: when the target of a content read is a directory, the handler answers
400 with the directory error body instead of returning content, and the only
filesystem access is the stat call. -/
theorem c8_directory_read_rejected (fd : String) (fs : FsState) (p : String)
    (h1 : jsTruthy (some p) = true)
    (h2 : jsStartsWith (joinPath fd p) fd = true)
    (h3 : fsStat fs (joinPath fd p) = .ok FsNode.dir) :
    getContent fd fs (some p) =
      (⟨400, Body.errorObj "Path points to a directory, not a file"⟩,
       [FsAction.stat (joinPath fd p)]) := by
  simp [getContent, h1, h2, h3]

theorem c8_directory_read_rejected_witness :
    getContent filesDirDefault demoWithSub (some "sub") =
      (⟨400, Body.errorObj "Path points to a directory, not a file"⟩,
       [FsAction.stat (joinPath filesDirDefault "sub")]) :=
  c8_directory_read_rejected filesDirDefault demoWithSub "sub"
    (by decide) (by decide) (by rfl)

/-- C2 amended: every write performed by POST /api/files is a single direct
fs.writeFile on the final target path, preceded only by ensureDir of its
parent; no temporary sibling file and no rename appear in the action trace,
so the atomic temp-then-rename mechanism is absent. -/
theorem c2_direct_write (fd : String) (fs : FsState) (b : PostBody)
    (h : (postFiles fd fs b).1.status = 200) :
    (postFiles fd fs b).2.2 =
      [FsAction.ensureDir (dirname (joinPath fd (b.filePath.getD ""))),
       FsAction.writeFile (joinPath fd (b.filePath.getD ""))
         (jsOrEmpty b.content)] ∧
    atomicWriteTrace (postFiles fd fs b).2.2
      (joinPath fd (b.filePath.getD "")) = false := by
  cases h1 : jsTruthy b.filePath with
  | false => simp [postFiles, h1] at h
  | true =>
    cases h2 : jsStartsWith (joinPath fd (b.filePath.getD "")) fd with
    | false => simp [postFiles, h1, h2] at h
    | true =>
      cases hE : fsEnsureDir fs (dirname (joinPath fd (b.filePath.getD ""))) with
      | error e => simp [postFiles, h1, h2, hE] at h
      | ok fs1 =>
        cases hW : fsWriteFile fs1 (joinPath fd (b.filePath.getD ""))
            (jsOrEmpty b.content) with
        | error e => simp [postFiles, h1, h2, hE, hW] at h
        | ok fs2 =>
          constructor
          · simp [postFiles, h1, h2, hE, hW]
          · simp [postFiles, h1, h2, hE, hW, atomicWriteTrace]

theorem c2_direct_write_witness :
    (postFiles filesDirDefault demoDirs ⟨some "b.txt", some "yo"⟩).2.2 =
      [FsAction.ensureDir
         (dirname (joinPath filesDirDefault ((some "b.txt").getD ""))),
       FsAction.writeFile (joinPath filesDirDefault ((some "b.txt").getD ""))
         (jsOrEmpty (some "yo"))] ∧
    atomicWriteTrace
      (postFiles filesDirDefault demoDirs ⟨some "b.txt", some "yo"⟩).2.2
      (joinPath filesDirDefault ((some "b.txt").getD "")) = false :=
  c2_direct_write filesDirDefault demoDirs ⟨some "b.txt", some "yo"⟩ (by decide)

/-- C3 amended: no handler ever acquires or releases any lock: the action
trace of every route handler, on every input and state, holds no lock
action at all, so operations on the same resolved path are not serialized by
any per-path exclusive lock. -/
theorem c3_no_locks (fd : String) (fs : FsState) (q1 q2 q3 : Option String)
    (b : PostBody) (up : UploadReq) :
    noLockActions (getFiles fd fs q1).2 = true ∧
    noLockActions (getContent fd fs q2).2 = true ∧
    noLockActions (postFiles fd fs b).2.2 = true ∧
    noLockActions (deleteFiles fd fs q3).2.2 = true ∧
    noLockActions (postUpload fd fs up).2.2 = true := by
  refine ⟨?_, ?_, ?_, ?_, ?_⟩
  · unfold getFiles
    dsimp only
    repeat' split
    all_goals simp [noLockActions, List.all_map]
  · unfold getContent
    dsimp only
    repeat' split
    all_goals simp [noLockActions]
  · unfold postFiles
    dsimp only
    repeat' split
    all_goals simp [noLockActions]
  · unfold deleteFiles
    dsimp only
    repeat' split
    all_goals simp [noLockActions]
  · unfold postUpload
    dsimp only
    repeat' split
    all_goals simp [noLockActions]

/-- C6 amended: the handlers forward raw fs error messages to the client, and
those messages embed the canonicalized absolute server path: reading a
missing file yields a 500 whose error body is the ENOENT message holding the
absolute path, and the Root string occurs inside that message whenever the
containment check passed. -/
theorem c6_error_leaks_root (fd : String) (fs : FsState) (p : String)
    (h1 : jsTruthy (some p) = true)
    (h2 : jsStartsWith (joinPath fd p) fd = true)
    (h3 : hasNull (joinPath fd p) = false)
    (h4 : lookupFs fs (joinPath fd p) = none) :
    (getContent fd fs (some p)).1 =
      ⟨500, Body.errorObj (enoent "stat" (joinPath fd p))⟩ ∧
    strContains (enoent "stat" (joinPath fd p)) fd = true := by
  constructor
  · simp [getContent, fsStat, h1, h2, h3, h4]
  · have h2' : fd.data.isPrefixOf (joinPath fd p).data = true := h2
    obtain ⟨t, ht⟩ :=
      exists_append_of_isPrefixOf fd.data (joinPath fd p).data h2'
    unfold strContains enoent
    simp only [String.data_append, ht, List.append_assoc]
    apply hasSubList_append_left
    apply hasSubList_append_left
    apply hasSubList_append_left
    exact hasSubList_of_isPrefixOf _ _ (isPrefixOf_append_self _ _)

theorem c6_error_leaks_root_witness :
    (getContent filesDirDefault demoDirs (some "missing.txt")).1 =
      ⟨500, Body.errorObj
        (enoent "stat" (joinPath filesDirDefault "missing.txt"))⟩ ∧
    strContains (enoent "stat" (joinPath filesDirDefault "missing.txt"))
      filesDirDefault = true :=
  c6_error_leaks_root filesDirDefault demoDirs "missing.txt"
    (by decide) (by decide) (by decide) (by decide)

/-- C9: a POST /api/files body with a truthy filePath and an absent or falsy
content field succeeds, writing an empty file at the target; reading the
target back returns the empty string; and a missing filePath, whatever the
content, is the case rejected with 400. -/
theorem c9_missing_content_writes_empty (fd : String) (fs fs1 : FsState)
    (fp : String) (co : Option String)
    (h0 : co = none ∨ co = some "")
    (h1 : jsTruthy (some fp) = true)
    (h2 : jsStartsWith (joinPath fd fp) fd = true)
    (h3 : fsEnsureDir fs (dirname (joinPath fd fp)) = .ok fs1)
    (h4 : hasNull (joinPath fd fp) = false)
    (h5 : lookupFs fs1 (joinPath fd fp) ≠ some FsNode.dir)
    (h6 : lookupFs fs1 (dirname (joinPath fd fp)) = some FsNode.dir) :
    postFiles fd fs ⟨some fp, co⟩ =
      (⟨200, Body.successPath fp⟩,
       setFs fs1 (joinPath fd fp) (.file ""),
       [FsAction.ensureDir (dirname (joinPath fd fp)),
        FsAction.writeFile (joinPath fd fp) ""]) ∧
    fsReadFile (setFs fs1 (joinPath fd fp) (.file "")) (joinPath fd fp)
      = .ok "" ∧
    ∀ co2 : Option String,
      (postFiles fd fs ⟨none, co2⟩).1 =
        ⟨400, Body.errorObj "File path is required"⟩ := by
  have hco : jsOrEmpty co = "" := by
    rcases h0 with h | h <;> simp [jsOrEmpty, h]
  have hW : fsWriteFile fs1 (joinPath fd fp) "" =
      .ok (setFs fs1 (joinPath fd fp) (.file "")) := by
    cases hl : lookupFs fs1 (joinPath fd fp) with
    | none => simp [fsWriteFile, h4, hl, h6]
    | some n =>
      cases n with
      | dir => exact absurd hl h5
      | file c0 => simp [fsWriteFile, h4, hl, h6]
  refine ⟨?_, ?_, ?_⟩
  · simp [postFiles, h1, h2, h3, hco, hW]
  · simp [fsReadFile, h4, lookupFs_setFs_same]
  · intro co2
    simp [postFiles, jsTruthy]

theorem c9_missing_content_writes_empty_witness :
    postFiles filesDirDefault demoDirs ⟨some "e.txt", none⟩ =
      (⟨200, Body.successPath "e.txt"⟩,
       setFs demoDirs (joinPath filesDirDefault "e.txt") (.file ""),
       [FsAction.ensureDir (dirname (joinPath filesDirDefault "e.txt")),
        FsAction.writeFile (joinPath filesDirDefault "e.txt") ""]) ∧
    fsReadFile (setFs demoDirs (joinPath filesDirDefault "e.txt") (.file ""))
      (joinPath filesDirDefault "e.txt") = .ok "" ∧
    ∀ co2 : Option String,
      (postFiles filesDirDefault demoDirs ⟨none, co2⟩).1 =
        ⟨400, Body.errorObj "File path is required"⟩ :=
  c9_missing_content_writes_empty filesDirDefault demoDirs demoDirs "e.txt"
    none (Or.inl rfl) (by decide) (by decide) (by rfl) (by decide)
    (by decide) (by decide)

/-- C10: every error exit of every endpoint returns a body that is exactly
one field named error holding a string message: any response with status at
least 400, from any of the five handlers on any input, has an errorObj body. -/
theorem c10_error_shape (fd : String) (fs : FsState) (q1 q2 q3 : Option String)
    (b : PostBody) (up : UploadReq) :
    errorShaped (getFiles fd fs q1).1 ∧ errorShaped (getContent fd fs q2).1 ∧
    errorShaped (postFiles fd fs b).1 ∧ errorShaped (deleteFiles fd fs q3).1 ∧
    errorShaped (postUpload fd fs up).1 := by
  refine ⟨?_, ?_, ?_, ?_, ?_⟩
  · unfold getFiles errorShaped
    dsimp only
    repeat' split
    all_goals intro h
    all_goals first
      | exact ⟨_, rfl⟩
      | (dsimp only at h; omega)
  · unfold getContent errorShaped
    dsimp only
    repeat' split
    all_goals intro h
    all_goals first
      | exact ⟨_, rfl⟩
      | (dsimp only at h; omega)
  · unfold postFiles errorShaped
    dsimp only
    repeat' split
    all_goals intro h
    all_goals first
      | exact ⟨_, rfl⟩
      | (dsimp only at h; omega)
  · unfold deleteFiles errorShaped
    dsimp only
    repeat' split
    all_goals intro h
    all_goals first
      | exact ⟨_, rfl⟩
      | (dsimp only at h; omega)
  · unfold postUpload errorShaped
    dsimp only
    repeat' split
    all_goals intro h
    all_goals first
      | exact ⟨_, rfl⟩
      | (dsimp only at h; omega)

theorem c10_error_shape_witness :
    ∃ m, (getContent filesDirDefault [] none).1.body = Body.errorObj m := by
  have h := c10_error_shape filesDirDefault [] none none none
    ⟨none, none⟩ ⟨none, none⟩
  exact h.2.1 (by decide)

end AppJs
